import Mathlib

/-!
Verification of three SpiderFoot plug-in modules:
  modules/sfp_turgen_password_hash.py
  modules/sfp_turgen_dehashed.py
  modules/sfp_people_data_labs.py

The modules are shallowly embedded: each `handleEvent` becomes a pure
function from an explicit module state (the mutable instance fields the
method touches) and an incoming event to an output record collecting the
new state, the HTTP queries issued, the events notified to listeners, the
error log, the Python return value, and the Python exception raised, if
any (side effects performed before an exception are kept, as in Python).
External collaborators that are not part of the repository (the HTTP
fetcher, the hash libraries, `checkForStop`) are oracles passed as
parameters.  JSON values decoded by `json.loads` are modelled by the
inductive type `Json`; Python runtime errors by `PyErr`.
-/

/-- Python runtime exceptions that the embedded code can raise. -/
inductive PyErr where
  | keyError (k : String)
  | typeError (msg : String)
  | valueError (msg : String)
  | attrError (msg : String)
deriving Repr, DecidableEq

/-- JSON values as produced by `json.loads` (floats are not needed by any
claim and are omitted; integers model the numbers that occur). -/
inductive Json where
  | null
  | bool (b : Bool)
  | num (n : Int)
  | str (s : String)
  | arr (xs : List Json)
  | obj (fields : List (String × Json))

/-- An event notified to listeners whose data payload is a Python string
(as in sfp_turgen_password_hash and sfp_turgen_dehashed). -/
structure SFEmit where
  etype : String
  edata : String
deriving Repr, DecidableEq

/-- An incoming SpiderFootEvent, reduced to the three fields the modules
read: `eventType`, `module`, `data`. -/
structure SFInEvent where
  eventType : String
  module : String
  data : String
deriving Repr, DecidableEq

mutual

/-- Python `repr` of a decoded JSON value (used by `str` on containers). -/
def pyRepr : Json → String
  | .null => "None"
  | .bool true => "True"
  | .bool false => "False"
  | .num n => toString n
  | .str s => "\x27" ++ s ++ "\x27"
  | .arr xs => "[" ++ pyReprArr xs ++ "]"
  | .obj fs => "\x7b" ++ pyReprObj fs ++ "\x7d"

/-- Comma-separated `repr` of the elements of a Python list. -/
def pyReprArr : List Json → String
  | [] => ""
  | [x] => pyRepr x
  | x :: xs => pyRepr x ++ ", " ++ pyReprArr xs

/-- Comma-separated `repr` of the items of a Python dict. -/
def pyReprObj : List (String × Json) → String
  | [] => ""
  | [(k, v)] => "\x27" ++ k ++ "\x27: " ++ pyRepr v
  | (k, v) :: fs => "\x27" ++ k ++ "\x27: " ++ pyRepr v ++ ", " ++ pyReprObj fs

end

/-- Python `str` of a decoded JSON value: a `str` prints itself, every
other value prints as its `repr`. -/
def pyStr : Json → String
  | .str s => s
  | j => pyRepr j

/-- Python `str` applied to a value that may be `None` (e.g. the result of
a failed `query`). -/
def pyStrOpt : Option Json → String
  | none => "None"
  | some j => pyStr j

/-- Python iteration (`for x in v`, `list.extend(v)`): lists yield their
elements, strings their one-character substrings, dicts their keys;
everything else raises TypeError. -/
def pyIterate : Json → Except PyErr (List Json)
  | .arr xs => .ok xs
  | .str s => .ok (s.toList.map (fun c => .str c.toString))
  | .obj fs => .ok (fs.map (fun kv => .str kv.1))
  | _ => .error (.typeError "object is not iterable")

/-- First-match association lookup, the model of Python `dict` access on a
decoded JSON object (json.loads keeps one binding per key). -/
def alookup {β : Type} (k : String) : List (String × β) → Option β
  | [] => none
  | (a, v) :: rest => if a = k then some v else alookup k rest

/-- Splitting of a character list on a non-empty separator, fuelled so
the recursion is structural (the fuel is at least the input length plus
one, so it is never exhausted at the call sites). -/
def splitCharsF (sep : List Char) : Nat → List Char → List Char → List (List Char)
  | 0, l, acc => [acc ++ l]
  | fuel + 1, l, acc =>
    match l with
    | [] => [acc]
    | c :: rest =>
      if sep.isPrefixOf (c :: rest) then
        acc :: splitCharsF sep fuel ((c :: rest).drop sep.length) []
      else splitCharsF sep fuel rest (acc ++ [c])

/-- Python `s.split(sep)` for a non-empty separator: the pieces between
non-overlapping occurrences of `sep`, scanned left to right (so
`"".split(",") == ['']` and `",".split(",") == ['', '']`). -/
def pySplit (s sep : String) : List String :=
  (splitCharsF sep.toList (s.toList.length + 1) s.toList []).map (fun cs => String.mk cs)

/-- Python `s.strip()`: surrounding ASCII whitespace removed (structural
on the character list, so it evaluates in the kernel). -/
def pyStrip (s : String) : String :=
  String.mk (((s.toList.dropWhile Char.isWhitespace).reverse.dropWhile Char.isWhitespace).reverse)

/-- Digit-string accumulator for `pyInt?`. -/
def pyDigitsAux : List Char → Nat → Option Nat
  | [], acc => some acc
  | c :: cs, acc =>
    if c.isDigit then pyDigitsAux cs (acc * 10 + (c.toNat - 48)) else none

/-- A non-empty all-digit character list as a number. -/
def pyDigits? : List Char → Option Nat
  | [] => none
  | ds => pyDigitsAux ds 0

/-- Python `int(s)` on a string, as a partial function: surrounding
whitespace and an optional sign are allowed, anything else (in
particular the empty string) raises ValueError, modelled by `none`. -/
def pyInt? (s : String) : Option Int :=
  match ((s.toList.dropWhile Char.isWhitespace).reverse.dropWhile Char.isWhitespace).reverse with
  | '-' :: ds => (pyDigits? ds).map (fun n => -(n : Int))
  | '+' :: ds => (pyDigits? ds).map (fun n => (n : Int))
  | ds => (pyDigits? ds).map (fun n => (n : Int))

/-! ## sfp_turgen_password_hash -/

/-- The five hash primitives used by sfp_turgen_password_hash.  They come
from external libraries (bcrypt, hashlib, passlib), not from this
repository, so they are abstract oracles; each maps the input password to
the string that Python interpolates into the event data (`str(hashval)`,
which for bcrypt includes the salted transcript of `hashpw`). -/
structure HashFns where
  bcrypt : String → String
  sha1 : String → String
  sha3_224 : String → String
  md5 : String → String
  pbkdf2_sha256 : String → String

/-- sfp_turgen_password_hash.handleEvent: builds the dict `hashes` in
insertion order bcrypt, sha1, sha3, md5, pbkdf2, then notifies one HASH
event per item with data `"[<algo>] <digest>"`, and returns None. -/
def sfp_turgen_password_hash.handleEvent (H : HashFns) (event : SFInEvent) :
    List SFEmit × Option Unit :=
  let eventData := event.data
  let hashes : List (String × String) :=
    [("bcrypt", H.bcrypt eventData),
     ("sha1", H.sha1 eventData),
     ("sha3", H.sha3_224 eventData),
     ("md5", H.md5 eventData),
     ("pbkdf2", H.pbkdf2_sha256 eventData)]
  (hashes.map (fun kv => ⟨"HASH", "[" ++ kv.1 ++ "] " ++ kv.2⟩), none)

/-! ## sfp_turgen_dehashed -/

/-- The static eventMap of sfp_turgen_dehashed, in source order. -/
def sfp_turgen_dehashed.eventMap : List (String × String) :=
  [("email", "EMAILADDR_COMPROMISED"),
   ("username", "USERNAME"),
   ("password", "PASSWORD_COMPROMISED"),
   ("hashed_password", "HASH_COMPROMISED"),
   ("name", "HUMAN_NAME"),
   ("address", "PHYSICAL_ADDRESS"),
   ("ip_address", "IP_ADDRESS"),
   ("phone", "PHONE_NUMBER")]

/-- The options of sfp_turgen_dehashed (defaults: all empty strings). -/
structure DehashedOpts where
  email : String
  api_key : String
  max_pages : String
deriving Repr, DecidableEq

/-- The mutable instance fields of sfp_turgen_dehashed that handleEvent
reads or writes: opts (read only), the `results` duplicate store, and the
`errorState` flag. -/
structure DehashedState where
  opts : DehashedOpts
  results : List String
  errorState : Bool
deriving Repr, DecidableEq

/-- Result of the pagination while-loop of sfp_turgen_dehashed.handleEvent
(lines 157-174): the accumulated entries, the queries issued (event data
and page), the number of loop-body iterations executed, and the Python
exception raised inside the loop, if any. -/
structure LoopRes where
  entries : List Json
  queries : List (String × Nat)
  iters : Nat
  exn : Option PyErr

/-- Exception-propagating left fold: runs `f` over the list threading the
state, stopping at the first step that raises (state changes made by
earlier steps are kept, as in Python). -/
def foldE {α σ : Type} (f : α → σ → σ × Option PyErr) : List α → σ → σ × Option PyErr
  | [], s => (s, none)
  | a :: rest, s =>
    match f a s with
    | (s2, none) => foldE f rest s2
    | (s2, some e) => (s2, some e)

/-- The pagination while-loop of sfp_turgen_dehashed.handleEvent.  `q`
models `self.query` (None on HTTP 401, missing content, or JSON parse
failure, otherwise the decoded JSON).  Each executed body issues one
query; `entries.extend(jsonData_temp.get('entries'))` raises TypeError
when the key is missing or null, and iterates the value otherwise;
`currentPage` advances only when at least `5000 * currentPage` entries
have accumulated. -/
def sfp_turgen_dehashed.fetchLoop (q : String → Nat → Option Json)
    (eventData : String) (maxPages : Int) (currentPage : Nat)
    (entries : List Json) : LoopRes :=
  if _h : (currentPage : Int) ≤ maxPages then
    match q eventData currentPage with
    | none => ⟨entries, [(eventData, currentPage)], 1, none⟩
    | some info =>
      match info with
      | .obj fields =>
        match (alookup "entries" fields).getD .null with
        | .null =>
          ⟨entries, [(eventData, currentPage)], 1,
           some (.typeError "NoneType object is not iterable")⟩
        | v =>
          match pyIterate v with
          | .error e => ⟨entries, [(eventData, currentPage)], 1, some e⟩
          | .ok es =>
            let entries2 := entries ++ es
            if entries2.length ≥ 5000 * currentPage then
              let r := sfp_turgen_dehashed.fetchLoop q eventData maxPages
                (currentPage + 1) entries2
              ⟨r.entries, (eventData, currentPage) :: r.queries, r.iters + 1, r.exn⟩
            else ⟨entries2, [(eventData, currentPage)], 1, none⟩
      | _ =>
        ⟨entries, [(eventData, currentPage)], 1,
         some (.attrError "object has no attribute get")⟩
  else ⟨entries, [], 0, none⟩
termination_by (maxPages + 1 - currentPage).toNat
decreasing_by omega

/-- `breachSource` of an entry (lines 187-190): the raw value of
`obtained_from` when it is neither None nor blank when printed, else the
empty string. -/
def sfp_turgen_dehashed.breachSource (fields : List (String × Json)) : Json :=
  match alookup "obtained_from" fields with
  | none => .str ""
  | some .null => .str ""
  | some v => if pyStrip (pyStr v) = "" then .str "" else v

/-- The `for e in events` emission loop (lines 200-202): each split event
type gets the value, with `"[" + breachSource + "]"` appended when the
type contains "_COMPROMISED" (TypeError when breachSource is not a
string). -/
def sfp_turgen_dehashed.emitLoop (source : Json) (s : String) :
    List String → List SFEmit → List SFEmit × Option PyErr
  | [], acc => (acc, none)
  | e :: rest, acc =>
    if (pySplit e "_COMPROMISED").length > 1 then
      match source with
      | .str b => sfp_turgen_dehashed.emitLoop source s rest (acc ++ [⟨e, s ++ ("[" ++ b ++ "]")⟩])
      | _ => (acc, some (.typeError "can only concatenate str"))
    else sfp_turgen_dehashed.emitLoop source s rest (acc ++ [⟨e, s⟩])

/-- One iteration of `for key, value in entry.items()` (lines 192-202):
skip None, blank (AttributeError on non-strings), and already produced
values; record the value as produced, then translate the key through
eventMap (absent keys yield no event). -/
def sfp_turgen_dehashed.itemStep (source : Json) (kv : String × Json)
    (acc : List SFEmit × List String) : (List SFEmit × List String) × Option PyErr :=
  let ems := acc.1
  let produced := acc.2
  match kv.2 with
  | .null => ((ems, produced), none)
  | .str s =>
    if pyStrip s = "" then ((ems, produced), none)
    else if s ∈ produced then ((ems, produced), none)
    else
      let produced2 := produced ++ [s]
      match alookup kv.1 sfp_turgen_dehashed.eventMap with
      | none => ((ems, produced2), none)
      | some t =>
        match sfp_turgen_dehashed.emitLoop source s (pySplit t ",") ems with
        | (ems2, e?) => ((ems2, produced2), e?)
  | _ => ((ems, produced), some (.attrError "object has no attribute strip"))

/-- Processing of a single Dehashed entry (lines 187-202): compute
breachSource, then run itemStep over the items in order.  Returns the
events emitted for this entry and the updated call-wide `produced` list.
Non-dict entries raise AttributeError at `entry.get`. -/
def sfp_turgen_dehashed.processEntry (entry : Json) (produced : List String) :
    (List SFEmit × List String) × Option PyErr :=
  match entry with
  | .obj fields =>
    foldE (sfp_turgen_dehashed.itemStep (sfp_turgen_dehashed.breachSource fields))
      fields ([], produced)
  | _ => (([], produced), some (.attrError "object has no attribute items"))

/-- The `for entry in entries` loop (lines 181-207): checkForStop
(modelled by the constant `stop`) returns early; otherwise each entry is
processed and followed by one RAW_RIR_DATA event carrying `str(entry)`. -/
def sfp_turgen_dehashed.entryLoop (stop : Bool) :
    List Json → (List SFEmit × List String) → (List SFEmit × List String) × Option PyErr
  | [], acc => (acc, none)
  | entry :: rest, acc =>
    if stop then (acc, none)
    else
      match sfp_turgen_dehashed.processEntry entry acc.2 with
      | ((ems2, produced2), none) =>
        sfp_turgen_dehashed.entryLoop stop rest
          (acc.1 ++ ems2 ++ [⟨"RAW_RIR_DATA", pyStr entry⟩], produced2)
      | ((ems2, produced2), some e) => ((acc.1 ++ ems2, produced2), some e)

/-- Output of one call of sfp_turgen_dehashed.handleEvent. -/
structure DehashedOut where
  state : DehashedState
  queries : List (String × Nat)
  events : List SFEmit
  errors : List String
  ret : Option Unit
  exn : Option PyErr
deriving Repr

/-- sfp_turgen_dehashed.handleEvent (lines 125-209). -/
def sfp_turgen_dehashed.handleEvent (q : String → Nat → Option Json) (stop : Bool)
    (st : DehashedState) (event : SFInEvent) : DehashedOut :=
  let eventData := event.data
  if st.errorState then ⟨st, [], [], [], none, none⟩
  else if st.opts.api_key = "" ∨ st.opts.email = "" then
    ⟨{ st with errorState := true }, [], [],
     ["You enabled sfp_dehashed but did not set an email or API key!"], none, none⟩
  else if eventData ∈ st.results then ⟨st, [], [], [], none, none⟩
  else
    let st2 : DehashedState := { st with results := st.results ++ [eventData] }
    match pyInt? st2.opts.max_pages with
    | none => ⟨st2, [], [], [], none, some (.valueError "invalid literal for int with base 10")⟩
    | some n =>
      let r := sfp_turgen_dehashed.fetchLoop q eventData n 1 []
      match r.exn with
      | some e => ⟨st2, r.queries, [], [], none, some e⟩
      | none =>
        if r.entries.isEmpty then ⟨st2, r.queries, [], [], none, none⟩
        else
          let z := sfp_turgen_dehashed.entryLoop stop r.entries ([], [])
          ⟨st2, r.queries, z.1.1, [], none, z.2⟩

/-- A scan delivering a sequence of events to sfp_turgen_dehashed:
handleEvent is folded over the events, accumulating issued queries and
notified events (the host catches exceptions between calls). -/
def sfp_turgen_dehashed.run (q : String → Nat → Option Json) (stop : Bool) :
    List SFInEvent → DehashedState → DehashedState × List (String × Nat) × List SFEmit
  | [], st => (st, [], [])
  | ev :: evs, st =>
    let o := sfp_turgen_dehashed.handleEvent q stop st ev
    let r := sfp_turgen_dehashed.run q stop evs o.state
    (r.1, o.queries ++ r.2.1, o.events ++ r.2.2)

/-! ## sfp_people_data_labs -/

/-- The eventMap of sfp_people_data_labs: incoming event type to query
field, in source order. -/
def sfp_people_data_labs.eventMap : List (String × String) :=
  [("EMAILADDR", "email"),
   ("HUMAN_NAME", "name"),
   ("PHONE_NUMBER", "phone"),
   ("SOCIAL_MEDIA", "profile"),
   ("COMPANY_NAME", "company")]

/-- The field combinations tried by sfp_people_data_labs, in source
order. -/
def sfp_people_data_labs.combinations : List (List String) :=
  [["phone"], ["profile"], ["company", "name"], ["email"]]

/-- `self.data` of sfp_people_data_labs after setup: one list of
accumulated values per field of eventMap. -/
structure PDLData where
  email : List String
  name : List String
  phone : List String
  profile : List String
  company : List String
deriving Repr, DecidableEq

/-- `self.data[field]` (the five keys set up in `setup`). -/
def PDLData.get (d : PDLData) : String → List String
  | "email" => d.email
  | "name" => d.name
  | "phone" => d.phone
  | "profile" => d.profile
  | "company" => d.company
  | _ => []

/-- `self.data[field].append(v)`. -/
def PDLData.push (d : PDLData) (field v : String) : PDLData :=
  match field with
  | "email" => { d with email := d.email ++ [v] }
  | "name" => { d with name := d.name ++ [v] }
  | "phone" => { d with phone := d.phone ++ [v] }
  | "profile" => { d with profile := d.profile ++ [v] }
  | "company" => { d with company := d.company ++ [v] }
  | _ => d

/-- The mutable instance fields of sfp_people_data_labs touched by
handleEvent: the api_key option (read only), the `results` and `produced`
duplicate stores, the accumulated `data`, and the `errorState` flag. -/
structure PDLState where
  api_key : String
  results : List String
  produced : List String
  data : PDLData
  errorState : Bool
deriving Repr, DecidableEq

/-- An event notified by sfp_people_data_labs: its type, its data payload
(a decoded JSON value handed to SpiderFootEvent), and whether it went
through `sendEvent` (RAW_RIR_DATA events are notified directly). -/
structure PEmit where
  etype : String
  edata : Json
  viaSend : Bool

/-- The emission context threaded through createEvents/sendEvent: the
`produced` duplicate store and the events notified so far in this call. -/
structure PCtx where
  produced : List String
  ems : List PEmit

/-- sfp_people_data_labs.sendEvent (lines 269-275): notify the event only
when the key "{event_type}-{data}" is absent from `produced`, recording
it. -/
def sfp_people_data_labs.sendEvent (event_type : String) (d : Json) (c : PCtx) : PCtx :=
  let info_key := event_type ++ "-" ++ pyStr d
  if info_key ∈ c.produced then c
  else ⟨c.produced ++ [info_key], c.ems ++ [⟨event_type, d, true⟩]⟩

/-- One meta of the `mappings` table of createEvents: the dotted item
field (absent for birth_date), the output event type, and whether the
meta has "type": "single". -/
structure PdlMeta where
  mfield : Option String
  mevent : String
  msingle : Bool
deriving Repr, DecidableEq

/-- The `mappings` table of createEvents (lines 212-244), in source
order. -/
def sfp_people_data_labs.mappings : List (String × List PdlMeta) :=
  [("names", [⟨some "name", "HUMAN_NAME", false⟩]),
   ("emails", [⟨some "address", "EMAILADDR", false⟩]),
   ("profiles", [⟨some "url", "SOCIAL_MEDIA", false⟩,
                 ⟨some "username", "USERNAME", false⟩]),
   ("experience", [⟨some "company.name", "COMPANY_NAME", false⟩]),
   ("locations", [⟨some "name", "PHYSICAL_ADDRESS", false⟩]),
   ("birth_date", [⟨none, "DATE_HUMAN_DOB", true⟩])]

/-- `info = item; for k in meta['field'].split("."): info = info.get(k)`:
dict lookups with missing keys giving None; `.get` on a non-dict
(including None from the previous step) raises AttributeError. -/
def pyGetChain : Json → List String → Except PyErr Json
  | j, [] => .ok j
  | j, k :: ks =>
    match j with
    | .obj fs => pyGetChain ((alookup k fs).getD .null) ks
    | _ => .error (.attrError "object has no attribute get")

/-- Body of `for item in items` in createEvents (lines 261-267). -/
def sfp_people_data_labs.processItem (meta : PdlMeta) (item : Json) (c : PCtx) :
    PCtx × Option PyErr :=
  match meta.mfield with
  | none => (c, some (.keyError "field"))
  | some fpath =>
    match pyGetChain item (pySplit fpath ".") with
    | .error e => (c, some e)
    | .ok .null => (c, none)
    | .ok info => (sfp_people_data_labs.sendEvent meta.mevent info c, none)

/-- Body of `for meta in metas` in createEvents (lines 254-267): fetch
the items for the field (missing or null means None, skip), send single
metas directly, iterate non-empty items otherwise. -/
def sfp_people_data_labs.processMeta (dfields : List (String × Json)) (field : String)
    (meta : PdlMeta) (c : PCtx) : PCtx × Option PyErr :=
  match (alookup field dfields).getD .null with
  | .null => (c, none)
  | items =>
    if meta.msingle then (sfp_people_data_labs.sendEvent meta.mevent items c, none)
    else
      match items with
      | .arr [] => (c, none)
      | _ =>
        match pyIterate items with
        | .error e => (c, some e)
        | .ok xs => foldE (sfp_people_data_labs.processItem meta) xs c

/-- Body of `for field in list(data.keys())` in createEvents. -/
def sfp_people_data_labs.processField (dfields : List (String × Json)) (field : String)
    (c : PCtx) : PCtx × Option PyErr :=
  match alookup field sfp_people_data_labs.mappings with
  | none => (c, none)
  | some metas => foldE (sfp_people_data_labs.processMeta dfields field) metas c

/-- sfp_people_data_labs.createEvents (lines 210-267).  `rec` is the
result of `self.query` (None on failure): `rec['data']` raises TypeError
on None, KeyError when the key is missing, and iterating `.keys()` of a
non-dict raises AttributeError. -/
def sfp_people_data_labs.createEvents (r : Option Json) (c : PCtx) : PCtx × Option PyErr :=
  match r with
  | none => (c, some (.typeError "NoneType object is not subscriptable"))
  | some j =>
    match j with
    | .obj fields =>
      match alookup "data" fields with
      | none => (c, some (.keyError "data"))
      | some dataJ =>
        match dataJ with
        | .obj dfields =>
          foldE (sfp_people_data_labs.processField dfields) (dfields.map Prod.fst) c
        | _ => (c, some (.attrError "object has no attribute keys"))
    | _ => (c, some (.typeError "object is not subscriptable"))

/-- sfp_people_data_labs.isValidQuery (lines 139-143): true exactly when
no queried field has an empty accumulated list. -/
def sfp_people_data_labs.isValidQuery (data : PDLData) (fields : List String) : Bool :=
  fields.all (fun f => !(data.get f).isEmpty)

/-- `itertools.product`, leftmost list outermost. -/
def itProduct {α : Type} : List (List α) → List (List α)
  | [] => [[]]
  | xs :: rest => xs.flatMap (fun x => (itProduct rest).map (fun t => x :: t))

/-- The per-combination query dicts of handleEvent (lines 187-194):
new_dict maps each field of the combination to its accumulated values,
`keys, values = zip(*new_dict.items())`, and one dict per element of
`itertools.product(*values)`. -/
def sfp_people_data_labs.queryDicts (data : PDLData) (combination : List String) :
    List (List (String × String)) :=
  let new_dict := combination.map (fun f => (f, data.get f))
  let keys := new_dict.map Prod.fst
  let values := new_dict.map Prod.snd
  (itProduct values).map (fun v => keys.zip v)

/-- The query_list accumulation of handleEvent (lines 183-196). -/
def sfp_people_data_labs.buildQueryList (data : PDLData) (eventType : String) :
    List (List (String × String)) :=
  sfp_people_data_labs.combinations.foldl
    (fun acc comb =>
      if comb.contains eventType && sfp_people_data_labs.isValidQuery data comb then
        acc ++ sfp_people_data_labs.queryDicts data comb
      else acc) []

/-- One iteration of `for query in query_list` (lines 198-208): issue the
query, run createEvents on the response (its exception aborts the loop),
then notify RAW_RIR_DATA with `str(rec)`. -/
def sfp_people_data_labs.queryStep (fetch : List (String × String) → Option Json)
    (query : List (String × String))
    (s : List (List (String × String)) × PCtx) :
    (List (List (String × String)) × PCtx) × Option PyErr :=
  let r := fetch query
  let issued := s.1 ++ [query]
  match sfp_people_data_labs.createEvents r s.2 with
  | (c2, some e) => ((issued, c2), some e)
  | (c2, none) =>
    ((issued, ⟨c2.produced, c2.ems ++ [⟨"RAW_RIR_DATA", .str (pyStrOpt r), false⟩]⟩), none)

/-- Output of one call of sfp_people_data_labs.handleEvent. -/
structure PDLOut where
  state : PDLState
  queries : List (List (String × String))
  events : List PEmit
  errors : List String
  ret : Option Unit
  exn : Option PyErr

/-- sfp_people_data_labs.handleEvent (lines 146-208).  Note that
`self.eventMap[eventName]` (line 154) runs before the errorState check,
so an unwatched event type raises KeyError unconditionally.  `fetch`
models `self.query` (None on HTTP or JSON failure), `stop` models
`self.checkForStop()`. -/
def sfp_people_data_labs.handleEvent (fetch : List (String × String) → Option Json)
    (stop : Bool) (st : PDLState) (event : SFInEvent) : PDLOut :=
  match alookup event.eventType sfp_people_data_labs.eventMap with
  | none => ⟨st, [], [], [], none, some (.keyError event.eventType)⟩
  | some eventType =>
    if st.errorState then ⟨st, [], [], [], none, none⟩
    else if st.api_key = "" then
      ⟨{ st with errorState := true }, [], [],
       ["You enabled sfp_people_data_labs but did not set an API key!"], none, none⟩
    else if event.data ∈ st.results then ⟨st, [], [], [], none, none⟩
    else
      let st2 : PDLState :=
        { st with results := st.results ++ [event.data],
                  data := st.data.push eventType event.data }
      let query_list := sfp_people_data_labs.buildQueryList st2.data eventType
      if stop then ⟨st2, [], [], [], none, none⟩
      else
        let z := foldE (sfp_people_data_labs.queryStep fetch) query_list
          ([], ⟨st2.produced, []⟩)
        ⟨{ st2 with produced := z.1.2.produced }, z.1.1, z.1.2.ems, [], none, z.2⟩

/-- The state of sfp_people_data_labs right after `setup`: empty stores,
empty accumulated data, errorState False. -/
def sfp_people_data_labs.setupState (api_key : String) : PDLState :=
  ⟨api_key, [], [], ⟨[], [], [], [], []⟩, false⟩

/-- A scan delivering a sequence of events to sfp_people_data_labs:
handleEvent folded over the events, accumulating issued queries and
notified events (the host catches exceptions between calls). -/
def sfp_people_data_labs.run (fetch : List (String × String) → Option Json) (stop : Bool) :
    List SFInEvent → PDLState → PDLState × List (List (String × String)) × List PEmit
  | [], st => (st, [], [])
  | ev :: evs, st =>
    let o := sfp_people_data_labs.handleEvent fetch stop st ev
    let r := sfp_people_data_labs.run fetch stop evs o.state
    (r.1, o.queries ++ r.2.1, o.events ++ r.2.2)

/-- The dedup keys of the events a run emitted through sendEvent. -/
def mappedKeys (ems : List PEmit) : List String :=
  (ems.filter (fun e => e.viaSend)).map (fun e => e.etype ++ "-" ++ pyStr e.edata)

/-! ## Specification-side definitions, written from the claims -/

/-- Values a Dehashed entry may carry without crashing value.strip():
None (JSON null) or a string. -/
def isNullOrStr : Json → Bool
  | .null => true
  | .str _ => true
  | _ => false

/-- Spec reading of C5: the entry's obtained_from source as a string,
empty when missing or blank. -/
def dehashedSourceSpec (fields : List (String × Json)) : String :=
  match alookup "obtained_from" fields with
  | some (.str b) => if pyStrip b = "" then "" else b
  | _ => ""

/-- Spec reading of C5, one item: a key whose value is non-None, not
whitespace-only and not already produced in this call is recorded, and is
translated through the eventMap table (keys absent from the table yield
no event); a type containing "_COMPROMISED" carries the source appended
in brackets. -/
def dehashedEntrySpecStep (source : String) (kv : String × Json)
    (acc : List SFEmit × List String) : List SFEmit × List String :=
  match kv.2 with
  | .str s =>
    if pyStrip s = "" ∨ s ∈ acc.2 then acc
    else
      ((acc.1 ++ (match alookup kv.1 sfp_turgen_dehashed.eventMap with
        | none => []
        | some t =>
          [⟨t, if "_COMPROMISED".toList <:+: t.toList
               then s ++ ("[" ++ source ++ "]") else s⟩])),
       acc.2 ++ [s])
  | _ => acc

/-- Spec reading of C5: the events a Dehashed entry translates to, given
the values already produced earlier in the call. -/
def dehashedEntrySpec (fields : List (String × Json)) (produced : List String) :
    List SFEmit :=
  (fields.foldl (fun acc kv => dehashedEntrySpecStep (dehashedSourceSpec fields) kv acc)
    ([], produced)).1

/-- Spec reading of C6: for each combination that contains the incoming
field type and whose every field has at least one accumulated value, one
query dict per element of the Cartesian product of the involved fields'
value lists. -/
def pdlQuerySpec (data : PDLData) (t : String) : List (List (String × String)) :=
  (sfp_people_data_labs.combinations.filter
      (fun comb => comb.contains t && comb.all (fun f => !(data.get f).isEmpty))).foldl
    (fun acc comb =>
      acc ++ (itProduct (comb.map data.get)).map (fun vs => comb.zip vs)) []

/-- Relation between emission contexts across a fragment of a
sfp_people_data_labs call: the produced store only grows, the new
emissions that went through sendEvent have pairwise distinct dedup keys,
and each such key is recorded afterwards and was unrecorded before. -/
def StepOk (c c2 : PCtx) : Prop :=
  c.produced ⊆ c2.produced ∧
  ∃ d, c2.ems = c.ems ++ d ∧ (mappedKeys d).Nodup ∧
    ∀ k ∈ mappedKeys d, k ∈ c2.produced ∧ k ∉ c.produced

/-! ## Theorems -/

/-- Claim C1: for every PASSWORD_COMPROMISED event whose data is a string
s, handleEvent of sfp_turgen_password_hash emits exactly five HASH
events, one per algorithm in the order bcrypt, sha1, sha3, md5, pbkdf2,
each with data of the form "[<algo>] <digest>", and returns None. -/
theorem C1_password_hash_five_events (H : HashFns) (ev : SFInEvent) :
    sfp_turgen_password_hash.handleEvent H ev =
      ([⟨"HASH", "[bcrypt] " ++ H.bcrypt ev.data⟩,
        ⟨"HASH", "[sha1] " ++ H.sha1 ev.data⟩,
        ⟨"HASH", "[sha3] " ++ H.sha3_224 ev.data⟩,
        ⟨"HASH", "[md5] " ++ H.md5 ev.data⟩,
        ⟨"HASH", "[pbkdf2] " ++ H.pbkdf2_sha256 ev.data⟩], none) := rfl

/-- The pagination loop executes at most `maxPages + 1 - currentPage`
body iterations, whatever the oracle answers. -/
theorem fetchLoop_iters_le (q : String → Nat → Option Json) (d : String) (N : Int) :
    ∀ (fuel page : Nat) (es : List Json), (N + 1 - (page : Int)).toNat ≤ fuel →
      (sfp_turgen_dehashed.fetchLoop q d N page es).iters ≤ (N + 1 - (page : Int)).toNat := by
  intro fuel
  induction fuel with
  | zero =>
    intro page es hk
    rw [sfp_turgen_dehashed.fetchLoop]
    have hgt : ¬((page : Int) ≤ N) := by omega
    simp [hgt]
  | succ fuel IH =>
    intro page es hk
    rw [sfp_turgen_dehashed.fetchLoop]
    by_cases h : (page : Int) ≤ N
    · simp only [dif_pos h]
      split
      · simp
        omega
      · split
        · split
          · simp
            omega
          · split
            · simp
              omega
            · split
              · rename_i es2 heq2 hlen
                simp only []
                have hle : (N + 1 - ((page + 1 : Nat) : Int)).toNat ≤ fuel := by
                  push_cast
                  omega
                have hr := IH (page + 1) (es ++ es2) hle
                simp
                push_cast at hr ⊢
                omega
              · simp
                omega
        · simp
          omega
    · simp [h]

/-- Claim C2: for every input event and every max_pages option value that
parses as an integer N, the Dehashed pagination loop terminates after at
most N iterations (for a negative N, after 0 = N.toNat iterations):
currentPage starts at 1, advances only on 5000*currentPage accumulated
entries, and the loop exits on page exhaustion, a None response, or a
short page. -/
theorem C2_dehashed_pagination_bound (q : String → Nat → Option Json)
    (d : String) (max_pages : String) (N : Int)
    (_hparse : pyInt? max_pages = some N) :
    (sfp_turgen_dehashed.fetchLoop q d N 1 []).iters ≤ N.toNat := by
  have h := fetchLoop_iters_le q d N (N + 1 - (1 : Int)).toNat 1 [] le_rfl
  omega

/-- Witness for C2 at max_pages "3" and an oracle that always fails. -/
theorem C2_dehashed_pagination_bound_witness :
    (sfp_turgen_dehashed.fetchLoop (fun _ _ => none) "x" 3 1 []).iters ≤ (3 : Int).toNat :=
  C2_dehashed_pagination_bound (fun _ _ => none) "x" "3" 3 rfl

/-- Claim C9: handleEvent of sfp_turgen_dehashed is total only under
unstated preconditions: with the default max_pages '' the int() call
raises ValueError before any page is fetched; a successful response
without an 'entries' list raises TypeError at entries.extend; a non-string
entry value (here the number 5) raises AttributeError at value.strip. -/
theorem C9_dehashed_unstated_preconditions :
    ((sfp_turgen_dehashed.handleEvent (fun _ _ => none) false
        ⟨⟨"e", "k", ""⟩, [], false⟩ ⟨"EMAILADDR", "m", "x"⟩).exn =
          some (.valueError "invalid literal for int with base 10")
      ∧ (sfp_turgen_dehashed.handleEvent (fun _ _ => none) false
        ⟨⟨"e", "k", ""⟩, [], false⟩ ⟨"EMAILADDR", "m", "x"⟩).queries = [])
    ∧ (sfp_turgen_dehashed.handleEvent (fun _ _ => some (.obj [("total", .num 0)])) false
        ⟨⟨"e", "k", "1"⟩, [], false⟩ ⟨"EMAILADDR", "m", "x"⟩).exn =
          some (.typeError "NoneType object is not iterable")
    ∧ (sfp_turgen_dehashed.handleEvent
        (fun _ _ => some (.obj [("entries", .arr [.obj [("id", .num 5), ("email", .str "a@b")]])]))
        false ⟨⟨"e", "k", "1"⟩, [], false⟩ ⟨"EMAILADDR", "m", "x"⟩).exn =
          some (.attrError "object has no attribute strip") := by
  refine ⟨⟨?_, ?_⟩, ?_, ?_⟩ <;>
    simp [sfp_turgen_dehashed.handleEvent, sfp_turgen_dehashed.fetchLoop,
      sfp_turgen_dehashed.entryLoop, sfp_turgen_dehashed.processEntry,
      sfp_turgen_dehashed.breachSource, sfp_turgen_dehashed.itemStep,
      foldE, pyInt?, pyDigits?, pyDigitsAux, alookup, pyIterate]

/-- Claim C10: sfp_people_data_labs.handleEvent evaluates
self.eventMap[eventName] before the error-state, API-key and duplicate
checks, so any event whose type is not one of the five watched types
raises KeyError immediately (no query, no event, state unchanged), even
when errorState is already True. -/
theorem C10_pdl_lookup_before_checks (fetch : List (String × String) → Option Json)
    (stop : Bool) (st : PDLState) (ev : SFInEvent)
    (h : alookup ev.eventType sfp_people_data_labs.eventMap = none) :
    sfp_people_data_labs.handleEvent fetch stop st ev =
      ⟨st, [], [], [], none, some (.keyError ev.eventType)⟩ := by
  unfold sfp_people_data_labs.handleEvent
  rw [h]

/-- Witness for C10: an IP_ADDRESS event raises KeyError even with
errorState already True. -/
theorem C10_pdl_lookup_before_checks_witness :
    sfp_people_data_labs.handleEvent (fun _ => none) false
      ⟨"k", [], [], ⟨[], [], [], [], []⟩, true⟩ ⟨"IP_ADDRESS", "m", "1.2.3.4"⟩ =
      ⟨⟨"k", [], [], ⟨[], [], [], [], []⟩, true⟩, [], [], [], none,
        some (.keyError "IP_ADDRESS")⟩ :=
  C10_pdl_lookup_before_checks (fun _ => none) false
    ⟨"k", [], [], ⟨[], [], [], [], []⟩, true⟩ ⟨"IP_ADDRESS", "m", "1.2.3.4"⟩ rfl

/-- Counterexample to claim C7 as stated: a sfp_people_data_labs
handleEvent call modifies the `data` field (the accumulated field-value
store), which is neither a duplicate-check store nor the errorState
flag. -/
theorem C7_counterexample_data_field_mutated :
    (sfp_people_data_labs.handleEvent (fun _ => none) false
      (sfp_people_data_labs.setupState "k") ⟨"EMAILADDR", "m", "a@b.c"⟩).state.data ≠
      (sfp_people_data_labs.setupState "k").data := by
  decide

/-- Claim C7 amended: a handleEvent call modifies no module field other
than the duplicate-check stores (results, produced), the accumulated
field-value store `data` of sfp_people_data_labs, and the errorState
flag; in particular the options survive every call unchanged. -/
theorem C7_amended_frame_condition (q : String → Nat → Option Json)
    (stop : Bool) (stD : DehashedState) (evD : SFInEvent)
    (fetch : List (String × String) → Option Json) (stop2 : Bool)
    (stP : PDLState) (evP : SFInEvent) :
    (sfp_turgen_dehashed.handleEvent q stop stD evD).state.opts = stD.opts
    ∧ (sfp_people_data_labs.handleEvent fetch stop2 stP evP).state.api_key = stP.api_key := by
  constructor
  · unfold sfp_turgen_dehashed.handleEvent
    dsimp only
    repeat' split
    all_goals rfl
  · unfold sfp_people_data_labs.handleEvent
    dsimp only
    repeat' split
    all_goals rfl

/-- A flagged sfp_turgen_dehashed module returns None immediately. -/
theorem dehashed_handleEvent_flagged (q : String → Nat → Option Json) (stop : Bool)
    (st : DehashedState) (ev : SFInEvent) (h : st.errorState = true) :
    sfp_turgen_dehashed.handleEvent q stop st ev = ⟨st, [], [], [], none, none⟩ := by
  simp [sfp_turgen_dehashed.handleEvent, h]

/-- A flagged sfp_turgen_dehashed module stays inert for a whole run. -/
theorem dehashed_run_flagged (q : String → Nat → Option Json) (stop : Bool) :
    ∀ (evs : List SFInEvent) (st : DehashedState), st.errorState = true →
      sfp_turgen_dehashed.run q stop evs st = (st, [], []) := by
  intro evs
  induction evs with
  | nil => intro st h; rfl
  | cons ev evs IH =>
    intro st h
    simp [sfp_turgen_dehashed.run, dehashed_handleEvent_flagged q stop st ev h, IH st h]

/-- sfp_people_data_labs.handleEvent on an unwatched event type raises
KeyError with everything else untouched. -/
theorem pdl_handleEvent_keyError (fetch : List (String × String) → Option Json)
    (stop : Bool) (st : PDLState) (ev : SFInEvent)
    (h : alookup ev.eventType sfp_people_data_labs.eventMap = none) :
    sfp_people_data_labs.handleEvent fetch stop st ev =
      ⟨st, [], [], [], none, some (.keyError ev.eventType)⟩ := by
  unfold sfp_people_data_labs.handleEvent
  rw [h]

/-- A flagged sfp_people_data_labs module returns None immediately on any
watched event type. -/
theorem pdl_handleEvent_flagged (fetch : List (String × String) → Option Json)
    (stop : Bool) (st : PDLState) (ev : SFInEvent) (t : String)
    (hl : alookup ev.eventType sfp_people_data_labs.eventMap = some t)
    (h : st.errorState = true) :
    sfp_people_data_labs.handleEvent fetch stop st ev = ⟨st, [], [], [], none, none⟩ := by
  simp [sfp_people_data_labs.handleEvent, hl, h]

/-- A flagged sfp_people_data_labs module issues no query and notifies
nothing for a whole run, whatever the event types. -/
theorem pdl_run_flagged (fetch : List (String × String) → Option Json) (stop : Bool) :
    ∀ (evs : List SFInEvent) (st : PDLState), st.errorState = true →
      sfp_people_data_labs.run fetch stop evs st = (st, [], []) := by
  intro evs
  induction evs with
  | nil => intro st h; rfl
  | cons ev evs IH =>
    intro st h
    cases hl : alookup ev.eventType sfp_people_data_labs.eventMap with
    | none =>
      simp [sfp_people_data_labs.run, pdl_handleEvent_keyError fetch stop st ev hl, IH st h]
    | some t =>
      simp [sfp_people_data_labs.run, pdl_handleEvent_flagged fetch stop st ev t hl h, IH st h]

/-- Missing credentials flag sfp_turgen_dehashed and log one error. -/
theorem dehashed_handleEvent_nocreds (q : String → Nat → Option Json) (stop : Bool)
    (st : DehashedState) (ev : SFInEvent) (h1 : st.errorState = false)
    (h2 : st.opts.api_key = "" ∨ st.opts.email = "") :
    sfp_turgen_dehashed.handleEvent q stop st ev =
      ⟨{ st with errorState := true }, [], [],
       ["You enabled sfp_dehashed but did not set an email or API key!"], none, none⟩ := by
  simp [sfp_turgen_dehashed.handleEvent, h1, h2]

/-- A missing API key flags sfp_people_data_labs and logs one error. -/
theorem pdl_handleEvent_nokey (fetch : List (String × String) → Option Json)
    (stop : Bool) (st : PDLState) (ev : SFInEvent) (t : String)
    (hl : alookup ev.eventType sfp_people_data_labs.eventMap = some t)
    (h1 : st.errorState = false) (h2 : st.api_key = "") :
    sfp_people_data_labs.handleEvent fetch stop st ev =
      ⟨{ st with errorState := true }, [], [],
       ["You enabled sfp_people_data_labs but did not set an API key!"], none, none⟩ := by
  simp [sfp_people_data_labs.handleEvent, hl, h1, h2]

/-- Claim C4: the only failure recovery is stop-and-flag.  In both API
modules a call finding the credentials unset logs an error, sets
errorState and returns None with no query and no event; afterwards every
call returns None immediately (for sfp_people_data_labs, on watched event
types), and a whole subsequent run issues no HTTP query, emits no event
and leaves the state untouched. -/
theorem C4_stop_and_flag :
    (∀ (q : String → Nat → Option Json) (stop : Bool) (st : DehashedState) (ev : SFInEvent),
      st.errorState = false → (st.opts.api_key = "" ∨ st.opts.email = "") →
      sfp_turgen_dehashed.handleEvent q stop st ev =
        ⟨{ st with errorState := true }, [], [],
         ["You enabled sfp_dehashed but did not set an email or API key!"], none, none⟩)
    ∧ (∀ (q : String → Nat → Option Json) (stop : Bool) (st : DehashedState) (ev : SFInEvent),
      st.errorState = true →
      sfp_turgen_dehashed.handleEvent q stop st ev = ⟨st, [], [], [], none, none⟩)
    ∧ (∀ (q : String → Nat → Option Json) (stop : Bool) (evs : List SFInEvent)
        (st : DehashedState), st.errorState = true →
      sfp_turgen_dehashed.run q stop evs st = (st, [], []))
    ∧ (∀ (fetch : List (String × String) → Option Json) (stop : Bool) (st : PDLState)
        (ev : SFInEvent) (t : String),
      alookup ev.eventType sfp_people_data_labs.eventMap = some t →
      st.errorState = false → st.api_key = "" →
      sfp_people_data_labs.handleEvent fetch stop st ev =
        ⟨{ st with errorState := true }, [], [],
         ["You enabled sfp_people_data_labs but did not set an API key!"], none, none⟩)
    ∧ (∀ (fetch : List (String × String) → Option Json) (stop : Bool) (st : PDLState)
        (ev : SFInEvent) (t : String),
      alookup ev.eventType sfp_people_data_labs.eventMap = some t →
      st.errorState = true →
      sfp_people_data_labs.handleEvent fetch stop st ev = ⟨st, [], [], [], none, none⟩)
    ∧ (∀ (fetch : List (String × String) → Option Json) (stop : Bool) (evs : List SFInEvent)
        (st : PDLState), st.errorState = true →
      sfp_people_data_labs.run fetch stop evs st = (st, [], [])) :=
  ⟨dehashed_handleEvent_nocreds,
   dehashed_handleEvent_flagged,
   dehashed_run_flagged,
   fun fetch stop st ev t hl h1 h2 => pdl_handleEvent_nokey fetch stop st ev t hl h1 h2,
   fun fetch stop st ev t hl h => pdl_handleEvent_flagged fetch stop st ev t hl h,
   pdl_run_flagged⟩

/-- Witness for C4: a Dehashed module with empty credentials flags
itself, and the flagged module stays inert on a later event. -/
theorem C4_stop_and_flag_witness :
    sfp_turgen_dehashed.handleEvent (fun _ _ => none) false
      ⟨⟨"", "", ""⟩, [], false⟩ ⟨"EMAILADDR", "m", "x"⟩ =
      ⟨⟨⟨"", "", ""⟩, [], true⟩, [], [],
       ["You enabled sfp_dehashed but did not set an email or API key!"], none, none⟩
    ∧ sfp_turgen_dehashed.run (fun _ _ => none) false
        [⟨"EMAILADDR", "m", "y"⟩, ⟨"USERNAME", "m", "z"⟩] ⟨⟨"", "", ""⟩, [], true⟩ =
        (⟨⟨"", "", ""⟩, [], true⟩, [], [])
    ∧ sfp_people_data_labs.handleEvent (fun _ => none) false
        (sfp_people_data_labs.setupState "") ⟨"EMAILADDR", "m", "x"⟩ =
        ⟨⟨"", [], [], ⟨[], [], [], [], []⟩, true⟩, [], [],
         ["You enabled sfp_people_data_labs but did not set an API key!"], none, none⟩ :=
  ⟨C4_stop_and_flag.1 (fun _ _ => none) false ⟨⟨"", "", ""⟩, [], false⟩
      ⟨"EMAILADDR", "m", "x"⟩ rfl (Or.inl rfl),
   C4_stop_and_flag.2.2.1 (fun _ _ => none) false
      [⟨"EMAILADDR", "m", "y"⟩, ⟨"USERNAME", "m", "z"⟩] ⟨⟨"", "", ""⟩, [], true⟩ rfl,
   C4_stop_and_flag.2.2.2.1 (fun _ => none) false (sfp_people_data_labs.setupState "")
      ⟨"EMAILADDR", "m", "x"⟩ "email" rfl rfl rfl⟩

/-- With credentials set, a Dehashed call on data already in `results`
is a no-op: None, no query, no event, state unchanged. -/
theorem dehashed_handleEvent_dup (q : String → Nat → Option Json) (stop : Bool)
    (st : DehashedState) (ev : SFInEvent) (h1 : st.errorState = false)
    (h2 : st.opts.api_key ≠ "") (h3 : st.opts.email ≠ "")
    (hd : ev.data ∈ st.results) :
    sfp_turgen_dehashed.handleEvent q stop st ev = ⟨st, [], [], [], none, none⟩ := by
  simp [sfp_turgen_dehashed.handleEvent, h1, h2, h3, hd]

/-- A Dehashed call never removes anything from `results`. -/
theorem dehashed_results_mono (q : String → Nat → Option Json) (stop : Bool)
    (st : DehashedState) (ev : SFInEvent) :
    st.results ⊆ (sfp_turgen_dehashed.handleEvent q stop st ev).state.results := by
  unfold sfp_turgen_dehashed.handleEvent
  dsimp only
  repeat' split
  all_goals first
    | exact List.Subset.refl _
    | exact List.subset_append_left _ _

/-- `results` of sfp_turgen_dehashed only grows along a run. -/
theorem dehashed_run_results_mono (q : String → Nat → Option Json) (stop : Bool) :
    ∀ (evs : List SFInEvent) (st : DehashedState),
      st.results ⊆ (sfp_turgen_dehashed.run q stop evs st).1.results := by
  intro evs
  induction evs with
  | nil => intro st; exact List.Subset.refl _
  | cons ev evs IH =>
    intro st
    exact (dehashed_results_mono q stop st ev).trans
      (IH (sfp_turgen_dehashed.handleEvent q stop st ev).state)

/-- A Dehashed call that passes the error and credential checks records
the incoming data in `results`. -/
theorem dehashed_handleEvent_records (q : String → Nat → Option Json) (stop : Bool)
    (st : DehashedState) (ev : SFInEvent) (h1 : st.errorState = false)
    (h2 : st.opts.api_key ≠ "") (h3 : st.opts.email ≠ "") :
    ev.data ∈ (sfp_turgen_dehashed.handleEvent q stop st ev).state.results := by
  by_cases hd : ev.data ∈ st.results
  · rw [dehashed_handleEvent_dup q stop st ev h1 h2 h3 hd]
    exact hd
  · unfold sfp_turgen_dehashed.handleEvent
    dsimp only
    simp only [h1, h2, h3, hd]
    repeat' split
    all_goals simp_all

/-- With the API key set, a sfp_people_data_labs call on data already in
`results` is a no-op: None, no query, no event, state unchanged. -/
theorem pdl_handleEvent_dup (fetch : List (String × String) → Option Json) (stop : Bool)
    (st : PDLState) (ev : SFInEvent) (t : String)
    (hl : alookup ev.eventType sfp_people_data_labs.eventMap = some t)
    (h1 : st.errorState = false) (h2 : st.api_key ≠ "")
    (hd : ev.data ∈ st.results) :
    sfp_people_data_labs.handleEvent fetch stop st ev = ⟨st, [], [], [], none, none⟩ := by
  simp [sfp_people_data_labs.handleEvent, hl, h1, h2, hd]

/-- A sfp_people_data_labs call never removes anything from `results`. -/
theorem pdl_results_mono (fetch : List (String × String) → Option Json) (stop : Bool)
    (st : PDLState) (ev : SFInEvent) :
    st.results ⊆ (sfp_people_data_labs.handleEvent fetch stop st ev).state.results := by
  unfold sfp_people_data_labs.handleEvent
  dsimp only
  repeat' split
  all_goals first
    | exact List.Subset.refl _
    | exact List.subset_append_left _ _

/-- `results` of sfp_people_data_labs only grows along a run. -/
theorem pdl_run_results_mono (fetch : List (String × String) → Option Json) (stop : Bool) :
    ∀ (evs : List SFInEvent) (st : PDLState),
      st.results ⊆ (sfp_people_data_labs.run fetch stop evs st).1.results := by
  intro evs
  induction evs with
  | nil => intro st; exact List.Subset.refl _
  | cons ev evs IH =>
    intro st
    exact (pdl_results_mono fetch stop st ev).trans
      (IH (sfp_people_data_labs.handleEvent fetch stop st ev).state)

/-- A sfp_people_data_labs call that passes the error and key checks
records the incoming data in `results`. -/
theorem pdl_handleEvent_records (fetch : List (String × String) → Option Json)
    (stop : Bool) (st : PDLState) (ev : SFInEvent) (t : String)
    (hl : alookup ev.eventType sfp_people_data_labs.eventMap = some t)
    (h1 : st.errorState = false) (h2 : st.api_key ≠ "") :
    ev.data ∈ (sfp_people_data_labs.handleEvent fetch stop st ev).state.results := by
  by_cases hd : ev.data ∈ st.results
  · rw [pdl_handleEvent_dup fetch stop st ev t hl h1 h2 hd]
    exact hd
  · unfold sfp_people_data_labs.handleEvent
    dsimp only
    simp only [hl, h1, h2, hd]
    repeat' split
    all_goals simp_all

/-- Claim C3: in both API modules, once handleEvent has processed an
event with data d (module unflagged, credentials set), d is recorded in
the `results` store, the store only grows over any later calls, and any
later call receiving an event with the same data returns None with no
HTTP query and no notified event, leaving the state unchanged. -/
theorem C3_duplicate_input_noop :
    (∀ (fetch : List (String × String) → Option Json) (stop : Bool) (st : PDLState)
        (ev : SFInEvent) (t : String),
      alookup ev.eventType sfp_people_data_labs.eventMap = some t →
      st.errorState = false → st.api_key ≠ "" →
      ev.data ∈ (sfp_people_data_labs.handleEvent fetch stop st ev).state.results)
    ∧ (∀ (fetch : List (String × String) → Option Json) (stop : Bool)
        (evs : List SFInEvent) (st : PDLState) (d : String),
      d ∈ st.results → d ∈ (sfp_people_data_labs.run fetch stop evs st).1.results)
    ∧ (∀ (fetch : List (String × String) → Option Json) (stop : Bool) (st : PDLState)
        (ev : SFInEvent) (t : String),
      alookup ev.eventType sfp_people_data_labs.eventMap = some t →
      st.errorState = false → st.api_key ≠ "" → ev.data ∈ st.results →
      sfp_people_data_labs.handleEvent fetch stop st ev = ⟨st, [], [], [], none, none⟩)
    ∧ (∀ (q : String → Nat → Option Json) (stop : Bool) (st : DehashedState)
        (ev : SFInEvent),
      st.errorState = false → st.opts.api_key ≠ "" → st.opts.email ≠ "" →
      ev.data ∈ (sfp_turgen_dehashed.handleEvent q stop st ev).state.results)
    ∧ (∀ (q : String → Nat → Option Json) (stop : Bool) (evs : List SFInEvent)
        (st : DehashedState) (d : String),
      d ∈ st.results → d ∈ (sfp_turgen_dehashed.run q stop evs st).1.results)
    ∧ (∀ (q : String → Nat → Option Json) (stop : Bool) (st : DehashedState)
        (ev : SFInEvent),
      st.errorState = false → st.opts.api_key ≠ "" → st.opts.email ≠ "" →
      ev.data ∈ st.results →
      sfp_turgen_dehashed.handleEvent q stop st ev = ⟨st, [], [], [], none, none⟩) :=
  ⟨fun fetch stop st ev t hl h1 h2 => pdl_handleEvent_records fetch stop st ev t hl h1 h2,
   fun fetch stop evs st _ hd => pdl_run_results_mono fetch stop evs st hd,
   fun fetch stop st ev t hl h1 h2 hd => pdl_handleEvent_dup fetch stop st ev t hl h1 h2 hd,
   fun q stop st ev h1 h2 h3 => dehashed_handleEvent_records q stop st ev h1 h2 h3,
   fun q stop evs st _ hd => dehashed_run_results_mono q stop evs st hd,
   fun q stop st ev h1 h2 h3 hd => dehashed_handleEvent_dup q stop st ev h1 h2 h3 hd⟩

/-- Witness for C3: a second Dehashed call with already-seen data "d" is
a no-op, and likewise for sfp_people_data_labs. -/
theorem C3_duplicate_input_noop_witness :
    sfp_turgen_dehashed.handleEvent (fun _ _ => none) false
      ⟨⟨"e", "k", "1"⟩, ["d"], false⟩ ⟨"EMAILADDR", "m", "d"⟩ =
      ⟨⟨⟨"e", "k", "1"⟩, ["d"], false⟩, [], [], [], none, none⟩
    ∧ sfp_people_data_labs.handleEvent (fun _ => none) false
        ⟨"k", ["d"], [], ⟨[], [], [], [], []⟩, false⟩ ⟨"EMAILADDR", "m", "d"⟩ =
        ⟨⟨"k", ["d"], [], ⟨[], [], [], [], []⟩, false⟩, [], [], [], none, none⟩ :=
  ⟨C3_duplicate_input_noop.2.2.2.2.2 (fun _ _ => none) false
      ⟨⟨"e", "k", "1"⟩, ["d"], false⟩ ⟨"EMAILADDR", "m", "d"⟩ rfl
      (by decide) (by decide) (by decide),
   C3_duplicate_input_noop.2.2.1 (fun _ => none) false
      ⟨"k", ["d"], [], ⟨[], [], [], [], []⟩, false⟩ ⟨"EMAILADDR", "m", "d"⟩ "email" rfl rfl
      (by decide) (by decide)⟩

/-- When every response is processed without exception, the query loop of
sfp_people_data_labs issues exactly the queued queries, in order. -/
theorem queryStep_benign (fetch : List (String × String) → Option Json)
    (a : List (String × String)) (s : List (List (String × String)) × PCtx)
    (h : (sfp_people_data_labs.createEvents (fetch a) s.2).2 = none) :
    sfp_people_data_labs.queryStep fetch a s =
      ((s.1 ++ [a],
        ⟨(sfp_people_data_labs.createEvents (fetch a) s.2).1.produced,
         (sfp_people_data_labs.createEvents (fetch a) s.2).1.ems ++
           [⟨"RAW_RIR_DATA", .str (pyStrOpt (fetch a)), false⟩]⟩), none) := by
  unfold sfp_people_data_labs.queryStep
  dsimp only
  rcases hc : sfp_people_data_labs.createEvents (fetch a) s.2 with ⟨c2, e?⟩
  rw [hc] at h
  cases e? with
  | some e => simp at h
  | none => rfl

/-- When every response is processed without exception, the query loop of
sfp_people_data_labs issues exactly the queued queries, in order. -/
theorem foldE_queryStep_all (fetch : List (String × String) → Option Json)
    (hben : ∀ query c, (sfp_people_data_labs.createEvents (fetch query) c).2 = none) :
    ∀ (l : List (List (String × String))) (s : List (List (String × String)) × PCtx),
      (foldE (sfp_people_data_labs.queryStep fetch) l s).1.1 = s.1 ++ l ∧
      (foldE (sfp_people_data_labs.queryStep fetch) l s).2 = none := by
  intro l
  induction l with
  | nil => intro s; exact ⟨(List.append_nil s.1).symm, rfl⟩
  | cons a rest IH =>
    intro s
    simp only [foldE]
    rw [queryStep_benign fetch a s (hben a s.2)]
    dsimp only
    refine ⟨?_, (IH _).2⟩
    rw [(IH _).1]
    simp

/-- Folding an append over a filtered list is folding a guarded append
over the whole list. -/
theorem foldl_filter_append {α β : Type} (p : α → Bool) (g : α → List β) :
    ∀ (l : List α) (acc : List β),
      (l.filter p).foldl (fun acc a => acc ++ g a) acc =
        l.foldl (fun acc a => if p a then acc ++ g a else acc) acc := by
  intro l
  induction l with
  | nil => intro acc; rfl
  | cons a l IH =>
    intro acc
    by_cases h : p a
    · simp [List.filter_cons, h, IH]
    · simp [List.filter_cons, h, IH]

/-- The zip machinery of handleEvent reduces to pairing the combination
with the Cartesian product of its value lists. -/
theorem queryDicts_eq (data : PDLData) (comb : List String) :
    sfp_people_data_labs.queryDicts data comb =
      (itProduct (comb.map data.get)).map (fun vs => comb.zip vs) := by
  unfold sfp_people_data_labs.queryDicts
  dsimp only
  simp only [List.map_map]
  have h1 : (Prod.fst ∘ fun f => (f, data.get f)) = fun f => f := rfl
  have h2 : (Prod.snd ∘ fun f => (f, data.get f)) = data.get := rfl
  simp only [h1, h2]
  simp

/-- The query_list built by handleEvent is exactly the one the
specification describes. -/
theorem buildQueryList_eq_spec (data : PDLData) (t : String) :
    sfp_people_data_labs.buildQueryList data t = pdlQuerySpec data t := by
  unfold sfp_people_data_labs.buildQueryList pdlQuerySpec
  rw [foldl_filter_append]
  simp only [sfp_people_data_labs.isValidQuery, queryDicts_eq]

/-- Claim C6: when sfp_people_data_labs handles a new event mapped to
field type t (unflagged, key set, no stop request, every response
processed without exception), it builds its queries from the accumulated
field values: for each combination containing t whose every field has at
least one accumulated value, one query dict per element of the Cartesian
product of the involved fields' value lists, and it issues exactly those
queries. -/
theorem C6_pdl_query_combinations (fetch : List (String × String) → Option Json)
    (st : PDLState) (ev : SFInEvent) (t : String)
    (hl : alookup ev.eventType sfp_people_data_labs.eventMap = some t)
    (h1 : st.errorState = false) (h2 : st.api_key ≠ "") (hd : ev.data ∉ st.results)
    (hben : ∀ query c, (sfp_people_data_labs.createEvents (fetch query) c).2 = none) :
    (sfp_people_data_labs.handleEvent fetch false st ev).queries =
      pdlQuerySpec (st.data.push t ev.data) t := by
  unfold sfp_people_data_labs.handleEvent
  rw [hl]
  dsimp only
  rw [if_neg (by simp [h1]), if_neg h2, if_neg hd, if_neg (by simp : ¬(false = true))]
  dsimp only
  rw [(foldE_queryStep_all fetch hben _ _).1]
  rw [List.nil_append]
  exact buildQueryList_eq_spec _ _

/-- Witness for C6: a first EMAILADDR event against an oracle returning a
record with an empty data dict. -/
theorem C6_pdl_query_combinations_witness :
    (sfp_people_data_labs.handleEvent (fun _ => some (.obj [("data", .obj [])])) false
      (sfp_people_data_labs.setupState "k") ⟨"EMAILADDR", "m", "a@b"⟩).queries =
      pdlQuerySpec ((sfp_people_data_labs.setupState "k").data.push "email" "a@b") "email" :=
  C6_pdl_query_combinations (fun _ => some (.obj [("data", .obj [])]))
    (sfp_people_data_labs.setupState "k") ⟨"EMAILADDR", "m", "a@b"⟩ "email"
    rfl rfl (by decide) (by decide) (fun _ _ => rfl)

/-- A successful association lookup lands on a value satisfying any
predicate that holds of all values in the list. -/
theorem alookup_of_all {β : Type} (p : β → Bool) (k : String) :
    ∀ (l : List (String × β)), l.all (fun kv => p kv.2) = true →
      ∀ v, alookup k l = some v → p v = true := by
  intro l
  induction l with
  | nil => intro _ v h; simp [alookup] at h
  | cons kv rest IH =>
    rcases kv with ⟨a, b⟩
    intro hall v h
    simp only [List.all_cons, Bool.and_eq_true] at hall
    simp only [alookup] at h
    split at h
    · cases h; exact hall.1
    · exact IH hall.2 v h

/-- Every output type in the Dehashed eventMap is comma-free, and its
split-based "_COMPROMISED" test agrees with substring containment. -/
theorem dehashed_eventMap_props (k t : String)
    (h : alookup k sfp_turgen_dehashed.eventMap = some t) :
    pySplit t "," = [t] ∧
      ((pySplit t "_COMPROMISED").length > 1 ↔ "_COMPROMISED".toList <:+: t.toList) := by
  simp only [sfp_turgen_dehashed.eventMap, alookup] at h
  repeat' split at h
  all_goals first
    | (cases h; exact ⟨by decide, by decide⟩)
    | exact Option.noConfusion h

/-- When every entry value is None or a string, breachSource is the
string the specification describes. -/
theorem breachSource_of_all (fields : List (String × Json))
    (hv : fields.all (fun kv => isNullOrStr kv.2) = true) :
    sfp_turgen_dehashed.breachSource fields = .str (dehashedSourceSpec fields) := by
  unfold sfp_turgen_dehashed.breachSource dehashedSourceSpec
  cases ha : alookup "obtained_from" fields with
  | none => rfl
  | some v =>
    have hp := alookup_of_all (fun j => isNullOrStr j) "obtained_from" fields hv v ha
    cases v with
    | null => rfl
    | str b =>
      by_cases hb : pyStrip b = ""
      · simp [pyStr, hb]
      · simp [pyStr, hb]
    | bool b => simp [isNullOrStr] at hp
    | num n => simp [isNullOrStr] at hp
    | arr xs => simp [isNullOrStr] at hp
    | obj fs => simp [isNullOrStr] at hp

/-- One item of a Dehashed entry behaves exactly as the specification
step, provided its value is None or a string and the breach source is a
string. -/
theorem itemStep_eq_spec (source : String) (kv : String × Json)
    (acc : List SFEmit × List String) (hkv : isNullOrStr kv.2 = true) :
    sfp_turgen_dehashed.itemStep (.str source) kv acc =
      (dehashedEntrySpecStep source kv acc, none) := by
  rcases kv with ⟨k, v⟩
  rcases acc with ⟨ems, produced⟩
  cases v with
  | null => rfl
  | bool b => simp [isNullOrStr] at hkv
  | num n => simp [isNullOrStr] at hkv
  | arr xs => simp [isNullOrStr] at hkv
  | obj fs => simp [isNullOrStr] at hkv
  | str s =>
    unfold sfp_turgen_dehashed.itemStep dehashedEntrySpecStep
    dsimp only
    by_cases h1 : pyStrip s = ""
    · rw [if_pos h1, if_pos (Or.inl h1)]
    · rw [if_neg h1]
      by_cases h2 : s ∈ produced
      · rw [if_pos h2, if_pos (Or.inr h2)]
      · rw [if_neg h2, if_neg (by tauto : ¬(pyStrip s = "" ∨ s ∈ produced))]
        cases hm : alookup k sfp_turgen_dehashed.eventMap with
        | none => simp
        | some t =>
          obtain ⟨hsplit, hiff⟩ := dehashed_eventMap_props k t hm
          dsimp only
          rw [hsplit]
          simp only [sfp_turgen_dehashed.emitLoop]
          by_cases hc : "_COMPROMISED".toList <:+: t.toList
          · rw [if_pos (hiff.mpr hc), if_pos hc]
          · rw [if_neg (fun hh => hc (hiff.mp hh)), if_neg hc]

/-- foldE of a step that never raises on the elements of the list is the
plain fold, and raises nothing. -/
theorem foldE_of_pure {α σ : Type} (f : α → σ → σ × Option PyErr) (g : α → σ → σ) :
    ∀ (l : List α), (∀ a ∈ l, ∀ s, f a s = (g a s, none)) →
      ∀ s, foldE f l s = (l.foldl (fun s a => g a s) s, none) := by
  intro l
  induction l with
  | nil => intro _ s; rfl
  | cons a rest IH =>
    intro h s
    simp only [foldE, h a (List.mem_cons_self a rest) s, List.foldl_cons]
    exact IH (fun x hx s2 => h x (List.mem_cons_of_mem a hx) s2) (g a s)

/-- Claim C5: for every Dehashed result entry whose values are None or
strings, processEntry translates each key whose value is non-None, not
whitespace-only and not already produced in this call through the static
eventMap table; keys absent from the table yield no event, and an event
whose type contains "_COMPROMISED" carries the value with the
obtained_from source appended as "[<source>]" (empty brackets when the
source is missing or blank); no exception is raised. -/
theorem C5_dehashed_field_mapping (fields : List (String × Json)) (produced : List String)
    (hv : fields.all (fun kv => isNullOrStr kv.2) = true) :
    (sfp_turgen_dehashed.processEntry (.obj fields) produced).1.1 =
      dehashedEntrySpec fields produced
    ∧ (sfp_turgen_dehashed.processEntry (.obj fields) produced).2 = none := by
  unfold sfp_turgen_dehashed.processEntry
  dsimp only
  rw [breachSource_of_all fields hv]
  rw [foldE_of_pure (sfp_turgen_dehashed.itemStep (.str (dehashedSourceSpec fields)))
    (fun kv acc => dehashedEntrySpecStep (dehashedSourceSpec fields) kv acc) fields
    (fun kv hkv acc => itemStep_eq_spec (dehashedSourceSpec fields) kv acc
      (by
        have := List.all_eq_true.mp hv kv hkv
        simpa using this))
    ([], produced)]
  exact ⟨rfl, rfl⟩

/-- Witness for C5: an entry with a compromised email and an
obtained_from source. -/
theorem C5_dehashed_field_mapping_witness :
    (sfp_turgen_dehashed.processEntry
        (.obj [("email", .str "a@b"), ("obtained_from", .str "Pwn")]) []).1.1 =
      dehashedEntrySpec [("email", .str "a@b"), ("obtained_from", .str "Pwn")] []
    ∧ (sfp_turgen_dehashed.processEntry
        (.obj [("email", .str "a@b"), ("obtained_from", .str "Pwn")]) []).2 = none :=
  C5_dehashed_field_mapping [("email", .str "a@b"), ("obtained_from", .str "Pwn")] []
    (by decide)

/-- mappedKeys distributes over append. -/
theorem mappedKeys_append (a b : List PEmit) :
    mappedKeys (a ++ b) = mappedKeys a ++ mappedKeys b := by
  simp [mappedKeys, List.filter_append]

/-- StepOk is reflexive. -/
theorem stepOk_refl (c : PCtx) : StepOk c c :=
  ⟨List.Subset.refl _, [], by simp, by simp [mappedKeys], by simp [mappedKeys]⟩

/-- StepOk composes. -/
theorem stepOk_trans {a b c : PCtx} (h1 : StepOk a b) (h2 : StepOk b c) : StepOk a c := by
  obtain ⟨hs1, d1, he1, hn1, hk1⟩ := h1
  obtain ⟨hs2, d2, he2, hn2, hk2⟩ := h2
  refine ⟨hs1.trans hs2, d1 ++ d2, ?_, ?_, ?_⟩
  · rw [he2, he1, List.append_assoc]
  · rw [mappedKeys_append]
    refine List.Nodup.append hn1 hn2 ?_
    intro k hk1m hk2m
    exact (hk2 k hk2m).2 ((hk1 k hk1m).1)
  · intro k hk
    rw [mappedKeys_append] at hk
    rcases List.mem_append.mp hk with h | h
    · exact ⟨hs2 ((hk1 k h).1), (hk1 k h).2⟩
    · exact ⟨(hk2 k h).1, fun hin => (hk2 k h).2 (hs1 hin)⟩

/-- sendEvent only grows the produced store and emits at most one fresh
mapped event. -/
theorem sendEvent_stepOk (t : String) (d : Json) (c : PCtx) :
    StepOk c (sfp_people_data_labs.sendEvent t d c) := by
  unfold sfp_people_data_labs.sendEvent
  dsimp only
  by_cases h : (t ++ "-" ++ pyStr d) ∈ c.produced
  · rw [if_pos h]
    exact stepOk_refl c
  · rw [if_neg h]
    refine ⟨List.subset_append_left _ _, [⟨t, d, true⟩], rfl, by simp [mappedKeys], ?_⟩
    intro k hk
    simp [mappedKeys] at hk
    subst hk
    exact ⟨by simp, h⟩

/-- A direct RAW_RIR_DATA notification adds no mapped emission and keeps
the produced store. -/
theorem raw_stepOk (c : PCtx) (t : String) (d : Json) :
    StepOk c ⟨c.produced, c.ems ++ [⟨t, d, false⟩]⟩ :=
  ⟨List.Subset.refl _, [⟨t, d, false⟩], rfl, by simp [mappedKeys], by simp [mappedKeys]⟩

/-- foldE preserves any reflexive transitive relation its step
preserves. -/
theorem foldE_rel {α σ : Type} (R : σ → σ → Prop) (hrefl : ∀ s, R s s)
    (htrans : ∀ a b c, R a b → R b c → R a c)
    (f : α → σ → σ × Option PyErr) (hf : ∀ a s, R s (f a s).1) :
    ∀ (l : List α) (s : σ), R s (foldE f l s).1 := by
  intro l
  induction l with
  | nil => intro s; exact hrefl s
  | cons a rest IH =>
    intro s
    simp only [foldE]
    rcases hfa : f a s with ⟨s2, e?⟩
    have h2 : R s s2 := by
      have := hf a s
      rw [hfa] at this
      exact this
    cases e? with
    | some e => exact h2
    | none => exact htrans _ _ _ h2 (IH s2)

/-- processItem emits only through sendEvent. -/
theorem processItem_stepOk (meta : PdlMeta) (item : Json) (c : PCtx) :
    StepOk c (sfp_people_data_labs.processItem meta item c).1 := by
  unfold sfp_people_data_labs.processItem
  repeat' split
  all_goals first
    | exact stepOk_refl _
    | exact sendEvent_stepOk _ _ _

/-- processMeta emits only through sendEvent. -/
theorem processMeta_stepOk (dfields : List (String × Json)) (field : String)
    (meta : PdlMeta) (c : PCtx) :
    StepOk c (sfp_people_data_labs.processMeta dfields field meta c).1 := by
  unfold sfp_people_data_labs.processMeta
  repeat' split
  all_goals first
    | exact stepOk_refl _
    | exact sendEvent_stepOk _ _ _
    | exact foldE_rel StepOk stepOk_refl (fun _ _ _ h1 h2 => stepOk_trans h1 h2)
        (sfp_people_data_labs.processItem meta)
        (fun a s => processItem_stepOk meta a s) _ c

/-- processField emits only through sendEvent. -/
theorem processField_stepOk (dfields : List (String × Json)) (field : String) (c : PCtx) :
    StepOk c (sfp_people_data_labs.processField dfields field c).1 := by
  unfold sfp_people_data_labs.processField
  repeat' split
  all_goals first
    | exact stepOk_refl _
    | exact foldE_rel StepOk stepOk_refl (fun _ _ _ h1 h2 => stepOk_trans h1 h2)
        (sfp_people_data_labs.processMeta dfields _)
        (fun a s => processMeta_stepOk dfields _ a s) _ c

/-- createEvents emits only through sendEvent. -/
theorem createEvents_stepOk (r : Option Json) (c : PCtx) :
    StepOk c (sfp_people_data_labs.createEvents r c).1 := by
  unfold sfp_people_data_labs.createEvents
  repeat' split
  all_goals first
    | exact stepOk_refl _
    | exact foldE_rel StepOk stepOk_refl (fun _ _ _ h1 h2 => stepOk_trans h1 h2)
        (sfp_people_data_labs.processField _)
        (fun a s => processField_stepOk _ a s) _ c

/-- One query-loop iteration: createEvents emissions plus one raw
notification. -/
theorem queryStep_stepOk (fetch : List (String × String) → Option Json)
    (a : List (String × String)) (s : List (List (String × String)) × PCtx) :
    StepOk s.2 (sfp_people_data_labs.queryStep fetch a s).1.2 := by
  unfold sfp_people_data_labs.queryStep
  dsimp only
  rcases hc : sfp_people_data_labs.createEvents (fetch a) s.2 with ⟨c2, e?⟩
  have h2 : StepOk s.2 c2 := by
    have := createEvents_stepOk (fetch a) s.2
    rw [hc] at this
    exact this
  cases e? with
  | some e => exact h2
  | none => exact stepOk_trans h2 (raw_stepOk c2 _ _)

/-- The whole query loop preserves StepOk on its context component. -/
theorem foldE_ctx_stepOk (fetch : List (String × String) → Option Json)
    (l : List (List (String × String))) (s : List (List (String × String)) × PCtx) :
    StepOk s.2 (foldE (sfp_people_data_labs.queryStep fetch) l s).1.2 :=
  foldE_rel (fun s1 s2 => StepOk s1.2 s2.2) (fun s => stepOk_refl s.2)
    (fun a b c h1 h2 => @stepOk_trans a.2 b.2 c.2 h1 h2)
    (sfp_people_data_labs.queryStep fetch)
    (fun a s => queryStep_stepOk fetch a s) l s

/-- Across one handleEvent call of sfp_people_data_labs, the produced
store grows and the call's emissions satisfy StepOk from the incoming
store. -/
theorem pdl_handleEvent_stepOk (fetch : List (String × String) → Option Json)
    (stop : Bool) (st : PDLState) (ev : SFInEvent) :
    StepOk ⟨st.produced, []⟩
      ⟨(sfp_people_data_labs.handleEvent fetch stop st ev).state.produced,
       (sfp_people_data_labs.handleEvent fetch stop st ev).events⟩ := by
  unfold sfp_people_data_labs.handleEvent
  dsimp only
  repeat' split
  all_goals dsimp only
  all_goals try exact stepOk_refl _
  rename_i t heq he hk hr hs
  exact foldE_ctx_stepOk fetch
    (sfp_people_data_labs.buildQueryList (st.data.push t ev.data) t)
    ([], ⟨st.produced, []⟩)

/-- Along any run of sfp_people_data_labs, the sendEvent emissions have
pairwise distinct dedup keys, and none of their keys was in the produced
store the run started from. -/
theorem pdl_run_fresh (fetch : List (String × String) → Option Json) (stop : Bool) :
    ∀ (evs : List SFInEvent) (st : PDLState),
      (mappedKeys (sfp_people_data_labs.run fetch stop evs st).2.2).Nodup ∧
      ∀ k ∈ mappedKeys (sfp_people_data_labs.run fetch stop evs st).2.2,
        k ∉ st.produced := by
  intro evs
  induction evs with
  | nil =>
    intro st
    exact ⟨by simp [sfp_people_data_labs.run, mappedKeys],
           by simp [sfp_people_data_labs.run, mappedKeys]⟩
  | cons ev evs IH =>
    intro st
    obtain ⟨hsub, d, hems, hnd, hkd⟩ := pdl_handleEvent_stepOk fetch stop st ev
    have hoev : (sfp_people_data_labs.handleEvent fetch stop st ev).events = d := by
      simpa using hems
    simp only [sfp_people_data_labs.run]
    rw [mappedKeys_append]
    constructor
    · refine List.Nodup.append ?_ (IH (sfp_people_data_labs.handleEvent fetch stop st ev).state).1 ?_
      · rw [hoev]
        exact hnd
      · intro k hk1 hk2
        have h1 := hkd k (by rw [hoev] at hk1; exact hk1)
        exact (IH (sfp_people_data_labs.handleEvent fetch stop st ev).state).2 k hk2 h1.1
    · intro k hk
      rcases List.mem_append.mp hk with h | h
      · exact (hkd k (by rw [hoev] at h; exact h)).2
      · intro hin
        exact (IH (sfp_people_data_labs.handleEvent fetch stop st ev).state).2 k h (hsub hin)

/-- Claim C8: sfp_people_data_labs never notifies the same
(event type, data) pair twice through sendEvent over the module's
lifetime: along any sequence of handleEvent calls after setup, the
emissions that went through sendEvent have pairwise distinct
"{event_type}-{data}" keys (equal pairs have equal keys, so no pair
repeats). -/
theorem C8_pdl_no_duplicate_sends (fetch : List (String × String) → Option Json)
    (stop : Bool) (api_key : String) (evs : List SFInEvent) :
    (mappedKeys (sfp_people_data_labs.run fetch stop evs
      (sfp_people_data_labs.setupState api_key)).2.2).Nodup :=
  (pdl_run_fresh fetch stop evs (sfp_people_data_labs.setupState api_key)).1
